import Mathlib

/-!
# Verification of the tg-auto-reply auto-reply decision engine

A shallow embedding of the auto-reply worker (`src/worker/auto_reply.py`) and
the local generation server's post-processing (`src/ai_server.py`), with
theorems settling the specification claims about candidate selection,
dispatch ordering, quota tracking, the generation fallback chain, group-chat
trigger evaluation, cooldown spacing, the random injector, and generation
post-processing.

Conventions of the embedding:
* timestamps are `Nat` seconds (UTC); calendar days are `Nat` day numbers;
* database tables keyed by peer id are total functions `Nat → Option row`;
* Python truthiness of an optional string (`if s:`) is `pyTruthy`;
* external effects (HTTP backends, the Telegram transport, `random`) enter as
  explicit parameters: an `Option String` backend outcome, a `Bool` send
  outcome, a rational sample `r`.
-/

namespace AutoReply

/-- Python truthiness of an optional string: `None` and `""` are falsy,
every other string is truthy (`if response:` in the worker). -/
def pyTruthy : Option String → Bool
  | none => false
  | some s => s != ""

/-- `matchesAt needle hay`: `needle` occurs at the start of `hay`
(character lists). -/
def matchesAt : List Char → List Char → Bool
  | [], _ => true
  | _ :: _, [] => false
  | a :: as, b :: bs => a == b && matchesAt as bs

/-- `hasSubChars needle hay`: `needle` occurs somewhere inside `hay`
(character lists); the embedding of Python's `needle in hay` on strings. -/
def hasSubChars (needle : List Char) : List Char → Bool
  | [] => matchesAt needle []
  | b :: bs => matchesAt needle (b :: bs) || hasSubChars needle bs

/-- Python's `needle in hay` for strings. -/
def strContains (hay needle : String) : Bool :=
  hasSubChars needle.toList hay.toList

/-- Python's `s.strip()` on a character list: drop whitespace from both
ends. -/
def stripChars (s : List Char) : List Char :=
  ((s.dropWhile Char.isWhitespace).reverse.dropWhile Char.isWhitespace).reverse

/-- Python's `s.lower()` on a character list. -/
def lowerChars (s : List Char) : List Char :=
  s.map Char.toLower

/-- Python's `s.split(sep)` for a non-empty separator, on character lists:
greedy left-to-right scan; the fuel argument (instantiated with the string
length, an upper bound on the number of steps) keeps the recursion
structural. -/
def splitCharsFuel (sep : List Char) : Nat → List Char → List (List Char)
  | 0, s => [s]
  | _ + 1, [] => [[]]
  | fuel + 1, c :: rest =>
      if matchesAt sep (c :: rest) then
        [] :: splitCharsFuel sep fuel (rest.drop (sep.length - 1))
      else
        match splitCharsFuel sep fuel rest with
        | [] => [[c]]
        | g :: gs => (c :: g) :: gs

/-- Python's `s.split(sep)` for a non-empty separator. -/
def splitChars (sep s : List Char) : List (List Char) :=
  splitCharsFuel sep s.length s

/-- Python's `s.replace(old, new)` for a non-empty pattern, on character
lists: left-to-right, non-overlapping. -/
def replaceCharsFuel (old new : List Char) : Nat → List Char → List Char
  | 0, s => s
  | _ + 1, [] => []
  | fuel + 1, c :: rest =>
      if matchesAt old (c :: rest) then
        new ++ replaceCharsFuel old new fuel (rest.drop (old.length - 1))
      else c :: replaceCharsFuel old new fuel rest

/-- Python's `s.replace(old, new)` for a non-empty pattern. -/
def replaceChars (old new s : List Char) : List Char :=
  replaceCharsFuel old new s.length s

/-! ## Reply Content Resolver (`src/worker/auto_reply.py`, lines 580-626 and 749-793) -/

/-- `FALLBACK_MESSAGE` (line 58): the fixed fallback string dispatched when
generation fails (default of the `FALLBACK_MESSAGE` environment variable). -/
def FALLBACK_MESSAGE : String := "Сейчас занят"

/-- `generate_ai_response` (lines 580-626).  The two backend calls
(`generate_local_response`, `generate_claude_response`) are HTTP requests
whose outcomes enter as parameters: `none` models a timeout, connection
error, non-2xx status or absent body; `some s` models a 2xx response whose
body carried the text `s`.  If `ai_engine = "claude"` only the Claude
backend is consulted; otherwise the local backend is tried first and, when
its result is falsy, Claude is retried; if both results are falsy the
function returns `none` (it never raises). -/
def generate_ai_response (ai_engine : String) (localResult claudeResult : Option String) :
    Option String :=
  if ai_engine = "claude" then
    claudeResult
  else
    if pyTruthy localResult then localResult
    else if pyTruthy claudeResult then claudeResult
    else none

/-- The reply-text computation of the candidate loop in `process_auto_replies`
(lines 765-793): `template` mode sends the template (or `FALLBACK_MESSAGE`
when the template is empty); `ai` mode with AI enabled and a non-empty
message uses `generate_ai_response`, substituting `FALLBACK_MESSAGE` for a
falsy result; `ai` mode with AI disabled, and every other mode, fall back to
the template (or `FALLBACK_MESSAGE`). -/
def resolveReplyText (reply_mode template : String) (ai_enabled : Bool)
    (message_text ai_engine : String) (localResult claudeResult : Option String) : String :=
  if reply_mode = "template" then
    if template != "" then template else FALLBACK_MESSAGE
  else if reply_mode = "ai" && ai_enabled && message_text != "" then
    match generate_ai_response ai_engine localResult claudeResult with
    | some t => if t != "" then t else FALLBACK_MESSAGE
    | none => FALLBACK_MESSAGE
  else if reply_mode = "ai" && !ai_enabled then
    if template != "" then template else FALLBACK_MESSAGE
  else
    if template != "" then template else FALLBACK_MESSAGE

/-! ## Generation post-processing (`src/ai_server.py`, lines 136-162) -/

/-- `FALLBACK_RESPONSES` (line 42): canned phrases substituted for
too-short generations. -/
def FALLBACK_RESPONSES : List String := ["ага", "ок", "понял", "да", "ну да", "угу"]

/-- `SPECIAL_TOKENS` (line 45): the protocol/control tokens the server
intends to clean out of generations. -/
def SPECIAL_TOKENS : List String := ["<|im_end|>", "<|im_start|>", "</s>", "<s>", "<|endoftext|>"]

/-- The cleaning pipeline of `generate_response` (lines 138-155) applied to
the decoded model output: take the text after the last
`<|im_start|>assistant` marker (when present) up to the next `<|im_end|>`
and strip it, cut everything from the first `<|`, delete `</s>` and `<s>`
occurrences, strip trailing `<` characters and surrounding whitespace, and
drop one leading newline. -/
def cleanAnswer (response : String) : String :=
  let r := response.toList
  let assistantTok := "<|im_start|>assistant".toList
  let answer :=
    if hasSubChars assistantTok r then
      stripChars ((splitChars "<|im_end|>".toList
        ((splitChars assistantTok r).getLastD [])).headD [])
    else r
  let answer :=
    if hasSubChars "<|".toList answer then (splitChars "<|".toList answer).headD []
    else answer
  let answer := replaceChars "<s>".toList [] (replaceChars "</s>".toList [] answer)
  let answer := stripChars ((answer.reverse.dropWhile (fun ch => ch == '<')).reverse)
  let answer := if matchesAt ['\n'] answer then answer.tail else answer
  String.mk answer

/-- `generate_response`'s post-processing and short-answer fallback
(lines 136-162): after cleaning, an answer shorter than 2 characters is
replaced by a canned phrase; `random.choice` enters as the index `pick`
(reduced modulo the list length). -/
def postprocessResponse (response : String) (pick : Nat) : String :=
  let answer := cleanAnswer response
  if answer.length < 2 then FALLBACK_RESPONSES.getD (pick % FALLBACK_RESPONSES.length) ""
  else answer

/-! ## Conversation store data model (`src/worker/auto_reply.py`) -/

/-- `ACCOUNT_ID` (line 70): the MVP's fixed account id. -/
def ACCOUNT_ID : Nat := 1

/-- A row of `messages` (columns read by the worker): `date` is seconds UTC,
`from_me` is the direction flag. -/
structure Message where
  id : Nat
  peer_id : Nat
  tg_message_id : Nat
  text : String
  date : Nat
  from_me : Bool
deriving DecidableEq, Repr

/-- A row of `peers` (columns read by the candidate query). -/
structure Peer where
  id : Nat
  tg_peer_id : Nat
  first_name : Option String
  username : Option String
  in_personal : Bool
deriving DecidableEq, Repr

/-- A row of `auto_reply_rules`: `reply_mode`, `template` and
`min_interval_sec` are nullable (the query wraps them in `COALESCE`). -/
structure Rule where
  account_id : Nat
  peer_id : Nat
  enabled : Bool
  reply_mode : Option String
  template : Option String
  min_interval_sec : Option Nat
deriving DecidableEq, Repr

/-- A row of `auto_reply_state`: the per-peer watermark
(`last_message_id`) and last reply timestamp. -/
structure StateRow where
  account_id : Nat
  peer_id : Nat
  last_reply_time : Option Nat
  last_message_id : Option Nat
deriving DecidableEq, Repr

/-- The tables read by `get_candidates_for_reply`. -/
structure DB where
  messages : List Message
  peers : List Peer
  rules : List Rule
  states : List StateRow

/-- The `JOIN peers p ON p.id = m.peer_id` lookup. -/
def peerFor (db : DB) (peer : Nat) : Option Peer :=
  db.peers.find? (fun p => p.id == peer)

/-- The `JOIN auto_reply_rules r ON r.peer_id = m.peer_id AND
r.account_id = $1 AND r.enabled = true` lookup (line 453). -/
def ruleFor (db : DB) (peer : Nat) : Option Rule :=
  db.rules.find? (fun r => r.peer_id == peer && r.account_id == ACCOUNT_ID && r.enabled)

/-- The `LEFT JOIN auto_reply_state s ON s.peer_id = m.peer_id AND
s.account_id = $1` lookup (line 454). -/
def stateFor (db : DB) (peer : Nat) : Option StateRow :=
  db.states.find? (fun s => s.peer_id == peer && s.account_id == ACCOUNT_ID)

/-- The WHERE predicate of `get_candidates_for_reply` (lines 434-466) for one
message: inbound (`from_me = false`), younger than 5 minutes
(`m.date > now() - interval '5 minutes'`, i.e. `now < m.date + 300`), the
peer exists and has an enabled rule whose `COALESCE(reply_mode,'ai')` is not
`'off'`, the id is above the watermark (or the state row / watermark is
NULL), and at least `COALESCE(min_interval_sec,60)` seconds passed since
`last_reply_time` (or it is NULL). -/
def isCandidate (db : DB) (now : Nat) (m : Message) : Bool :=
  match ruleFor db m.peer_id, peerFor db m.peer_id with
  | some r, some _ =>
      !m.from_me && now < m.date + 300 && (r.reply_mode.getD "ai") != "off" &&
      (match stateFor db m.peer_id with
       | none => true
       | some s =>
          (match s.last_message_id with
           | none => true
           | some lm => lm < m.id) &&
          (match s.last_reply_time with
           | none => true
           | some lt => lt + r.min_interval_sec.getD 60 ≤ now))
  | _, _ => false

/-- `get_candidates_for_reply` (lines 425-471): the matching messages,
`ORDER BY m.id ASC`, `LIMIT 10`.  The query is a plain `SELECT`: it reads
the store and performs no write (embedded as a pure function of `db`). -/
def get_candidates_for_reply (db : DB) (now : Nat) : List Message :=
  (List.insertionSort (fun a b : Message => a.id ≤ b.id)
    (db.messages.filter (isCandidate db now))).take 10

/-! ## Rate limiter / quota tracker (`src/worker/auto_reply.py`, lines 321-394) -/

/-- A row of `reply_counts`: daily counter, lifetime new-contact counter,
and the stored reset date (`last_reply_date`, a UTC day number). -/
structure CountRow where
  daily_replies : Nat
  new_contact_replies : Nat
  last_reply_date : Nat
deriving DecidableEq, Repr

/-- The `reply_counts` table, keyed by peer id. -/
def ReplyCounts : Type := Nat → Option CountRow

/-- The upsert of `check_and_update_daily_limit` (lines 331-341):
`INSERT ... (peer_id, 0, today) ON CONFLICT DO UPDATE SET daily_replies =
0 when the stored date differs from today else unchanged, last_reply_date =
today, RETURNING daily_replies`.  A fresh row's `new_contact_replies` takes
the schema default 0; the update leaves it untouched. -/
def upsertDaily (counts : ReplyCounts) (today peer : Nat) : ReplyCounts × Nat :=
  match counts peer with
  | none =>
      (fun p => if p = peer then some ⟨0, 0, today⟩ else counts p, 0)
  | some row =>
      let d := if row.last_reply_date ≠ today then 0 else row.daily_replies
      (fun p => if p = peer then some ⟨d, row.new_contact_replies, today⟩ else counts p, d)

/-- `check_and_update_daily_limit` (lines 321-354): upsert with day
rollover, compare the returned counter against the cap, and on success run
`UPDATE reply_counts SET daily_replies = daily_replies + 1`. -/
def check_and_update_daily_limit (counts : ReplyCounts) (max_daily today peer : Nat) :
    Bool × ReplyCounts :=
  let res := upsertDaily counts today peer
  if res.2 ≥ max_daily then (false, res.1)
  else
    (true, fun p =>
      if p = peer then (res.1 p).map (fun r => { r with daily_replies := r.daily_replies + 1 })
      else res.1 p)

/-- `check_new_contact_limit` (lines 357-373): allowed unless a row exists
whose `new_contact_replies` already reached the cap. -/
def check_new_contact_limit (counts : ReplyCounts) (max_new peer : Nat) : Bool :=
  match counts peer with
  | some row => !(row.new_contact_replies ≥ max_new)
  | none => true

/-- `increment_new_contact_reply` (lines 376-394): upsert that increments
the lifetime new-contact counter and the daily counter (with day rollover),
returning the new lifetime count.  Note: no cap is consulted here. -/
def increment_new_contact_reply (counts : ReplyCounts) (today peer : Nat) :
    Nat × ReplyCounts :=
  match counts peer with
  | none => (1, fun p => if p = peer then some ⟨1, 1, today⟩ else counts p)
  | some row =>
      let newNc := row.new_contact_replies + 1
      let newDaily := if row.last_reply_date ≠ today then 1 else row.daily_replies + 1
      (newNc, fun p => if p = peer then some ⟨newDaily, newNc, today⟩ else counts p)

/-- The `daily_replies` counter a peer currently stores (0 when no row). -/
def dailyOf (counts : ReplyCounts) (peer : Nat) : Nat :=
  ((counts peer).map CountRow.daily_replies).getD 0

/-- The lifetime `new_contact_replies` counter a peer currently stores
(0 when no row). -/
def ncOf (counts : ReplyCounts) (peer : Nat) : Nat :=
  ((counts peer).map CountRow.new_contact_replies).getD 0

/-! ## Dispatch & state commit (`src/worker/auto_reply.py`, lines 474-482 and 749-805) -/

/-- `update_reply_state` (lines 474-482): upsert setting the watermark to
the answered message id and the reply time to now. -/
def update_reply_state (states : Nat → Option StateRow) (peer message_id now : Nat) :
    Nat → Option StateRow :=
  fun p => if p = peer then some ⟨ACCOUNT_ID, peer, some now, some message_id⟩ else states p

/-- The store state the direct-message pipeline mutates. -/
structure WorkerState where
  counts : ReplyCounts
  states : Nat → Option StateRow

/-- One iteration of the candidate loop of `process_auto_replies`
(lines 749-803) on a candidate row: consume the daily quota
(`check_and_update_daily_limit`), and only if it allows, resolve the reply
text and attempt the send (`send_reply`, outcome `sendOk`); on confirmed
send, advance the watermark with `update_reply_state`.  Returns the
dispatched text (`some` exactly when a send succeeded) and the new state. -/
def process_candidate (st : WorkerState) (cand : Message) (template reply_mode : String)
    (max_daily today now : Nat) (ai_enabled : Bool) (ai_engine : String)
    (localResult claudeResult : Option String) (sendOk : Bool) :
    Option String × WorkerState :=
  let res := check_and_update_daily_limit st.counts max_daily today cand.peer_id
  if !res.1 then (none, { st with counts := res.2 })
  else
    let replyText := resolveReplyText reply_mode template ai_enabled cand.text ai_engine
      localResult claudeResult
    if sendOk then
      (some replyText,
        { counts := res.2,
          states := update_reply_state st.states cand.peer_id cand.id now })
    else
      (none, { st with counts := res.2 })

/-! ## New-contact pipeline (`src/worker/auto_reply.py`, lines 639-722) -/

/-- `process_new_contact` (lines 639-722), restricted to its effect on
`reply_counts` and its reply decision: `mode = "off"` is ignored; the
lifetime cap is checked with `check_new_contact_limit`; the reply text is
the template in `template` mode, and in `ai` mode the backend outcome with
template fallback when it is falsy; other modes produce no reply.  On a
confirmed send the lifetime counter is advanced with
`increment_new_contact_reply`. -/
def process_new_contact (counts : ReplyCounts) (peer : Nat) (mode ncTemplate : String)
    (aiResult : Option String) (max_new today : Nat) (sendOk : Bool) :
    Bool × ReplyCounts :=
  if mode = "off" then (false, counts)
  else if !(check_new_contact_limit counts max_new peer) then (false, counts)
  else
    let replyText : Option String :=
      if mode = "template" then some ncTemplate
      else if mode = "ai" then
        some (if pyTruthy aiResult then aiResult.getD "" else ncTemplate)
      else none
    match replyText with
    | none => (false, counts)
    | some _ =>
        if sendOk then (true, (increment_new_contact_reply counts today peer).2)
        else (false, counts)

/-- Iterated `process_new_contact` over `n` successive inbound messages with
successful sends: the list of per-message reply decisions and the final
counters. -/
def runNewContacts (counts : ReplyCounts) (peer : Nat) (mode ncTemplate : String)
    (aiResult : Option String) (max_new today : Nat) : Nat → List Bool × ReplyCounts
  | 0 => ([], counts)
  | n + 1 =>
      let step := process_new_contact counts peer mode ncTemplate aiResult max_new today true
      let rest := runNewContacts step.2 peer mode ncTemplate aiResult max_new today n
      (step.1 :: rest.1, rest.2)

/-! ## Chat triggers (`src/worker/auto_reply.py`, lines 825-1159) -/

/-- A row of `chat_triggers` joined with its peer (columns read by
`get_chat_triggers`): per-trigger enable flags, nullable keyword list,
random-interval bounds in minutes, nullable last-fired timestamp, nullable
cooldown, and the daily counter with its reset date. -/
structure ChatTriggersRow where
  peer_id : Nat
  enabled : Bool
  trigger_mention : Bool
  trigger_reply : Bool
  trigger_keywords : Bool
  trigger_random : Bool
  keywords : Option String
  random_interval_min : Nat
  random_interval_max : Nat
  last_random_time : Option Nat
  cooldown_sec : Option Nat
  daily_limit : Nat
  daily_count : Nat
  last_count_reset : Nat
deriving DecidableEq, Repr

/-- `check_chat_limits` (lines 931-966) on the chat's row: on a new UTC day
the counter is reset to 0 (a write) and the check passes; otherwise it
passes iff the counter is below the limit. -/
def check_chat_limits (row : ChatTriggersRow) (today : Nat) : Bool × ChatTriggersRow :=
  if row.last_count_reset ≠ today then
    (true, { row with daily_count := 0, last_count_reset := today })
  else if row.daily_count ≥ row.daily_limit then (false, row)
  else (true, row)

/-- The cooldown gate of `check_chat_triggers` (lines 896-905): evaluated
only when `cooldown_sec` is truthy (non-NULL and non-zero) and
`last_random_time` is non-NULL; blocks when the elapsed seconds are below
the cooldown. -/
def cooldownBlocks (row : ChatTriggersRow) (now : Nat) : Bool :=
  match row.cooldown_sec, row.last_random_time with
  | some c, some t0 => c ≠ 0 && ((now : ℚ) - (t0 : ℚ) < (c : ℚ))
  | _, _ => false

/-- The keyword list parse of `check_chat_triggers` (line 921):
split on commas, keep entries with non-empty strip, lower-case them. -/
def parseKeywords (kws : String) : List (List Char) :=
  ((splitChars [','] kws.toList).filter (fun kw => stripChars kw != [])).map
    (fun kw => lowerChars (stripChars kw))

/-- The keyword trigger test (lines 921-926): some parsed keyword is a
substring of the lower-cased message. -/
def keywordHit (kws message_text : String) : Bool :=
  (parseKeywords kws).any (fun kw => hasSubChars kw (lowerChars message_text.toList))

/-- `check_chat_triggers` (lines 866-928) on the chat's row: no row is
returned for a disabled chat (`get_chat_triggers` filters
`enabled = true`); then the daily limit (with its reset side effect) and
the cooldown are checked, and only afterwards the triggers fire in priority
order mention > reply-to-self > keyword, each gated by its enable flag.
Returns the recorded reason and the (possibly reset) row. -/
def check_chat_triggers (row : ChatTriggersRow) (message_text : String)
    (is_mention is_reply_to_me : Bool) (now today : Nat) :
    Option String × ChatTriggersRow :=
  if !row.enabled then (none, row)
  else
    let lim := check_chat_limits row today
    if !lim.1 then (none, lim.2)
    else if cooldownBlocks row now then (none, lim.2)
    else if row.trigger_mention && is_mention then (some "mention", lim.2)
    else if row.trigger_reply && is_reply_to_me then (some "reply", lim.2)
    else if row.trigger_keywords && pyTruthy row.keywords &&
        keywordHit (row.keywords.getD "") message_text then (some "keyword", lim.2)
    else (none, lim.2)

/-- `update_chat_counters` (lines 969-990): day-rollover-aware increment of
the daily counter, and `last_random_time = now()`. -/
def update_chat_counters (row : ChatTriggersRow) (today now : Nat) : ChatTriggersRow :=
  { row with
    daily_count := if row.last_count_reset ≠ today then 1 else row.daily_count + 1,
    last_count_reset := today,
    last_random_time := some now }

/-- A chat message as seen through the transport (`get_messages`): the
author-is-me flag, the sender's first name, and the text. -/
structure ChatMsg where
  fromMe : Bool
  sender : String
  text : String
deriving DecidableEq, Repr

/-- The context string of `random_chat_task` (lines 1130-1134): the last 30
chat messages (the state stores them newest first), oldest first, skipping
empty texts, each rendered `sender: text`. -/
def buildContext (msgs : List ChatMsg) : String :=
  String.intercalate "\n"
    (((msgs.take 30).reverse.filter (fun m => m.text != "")).map
      (fun m => m.sender ++ ": " ++ m.text))

/-- The prompt of `random_chat_task` (line 1138). -/
def randomPrompt (context : String) : String :=
  "Контекст чата:\n" ++ context ++
    "\n\nНапиши короткое уместное сообщение в этот чат. Не задавай вопросов, просто участвуй в разговоре."

/-- `process_chat_message` (lines 1017-1079), reply computation and commit:
nothing is sent when auto-reply is globally disabled; with AI enabled the
backend outcome is used (with `FALLBACK_MESSAGE` for a falsy result), else
`FALLBACK_MESSAGE`; on a confirmed send `update_chat_counters` runs.
Returns the dispatched text (`some` exactly on success) and the row. -/
def process_chat_message (row : ChatTriggersRow) (auto_enabled ai_enabled : Bool)
    (aiResult : Option String) (sendOk : Bool) (today now : Nat) :
    Option String × ChatTriggersRow :=
  if !auto_enabled then (none, row)
  else
    let reply_text :=
      if ai_enabled then
        if pyTruthy aiResult then aiResult.getD "" else FALLBACK_MESSAGE
      else FALLBACK_MESSAGE
    if sendOk then (some reply_text, update_chat_counters row today now)
    else (none, row)

/-- The per-chat state the group pipeline reads and writes: the
`chat_triggers` row and the chat's messages (newest first, as
`get_messages` returns them). -/
structure ChatState where
  row : ChatTriggersRow
  msgs : List ChatMsg

/-- An external event touching one group chat.  `inbound` is a message from
another member, with the mention/reply flags the handler computes and the
snapshot of settings and external outcomes its processing consumes;
`scan` is one visit of the once-per-minute `random_chat_task`, with the
sampled `random.random()` value `r` and the generation call `gen` (applied
to the prompt the task builds). -/
inductive ChatEvent where
  | inbound (sender text : String) (is_mention is_reply_to_me : Bool)
      (auto_enabled ai_enabled : Bool) (aiResult : Option String) (sendOk : Bool)
  | scan (r : ℚ) (gen : String → Option String) (sendOk : Bool)

/-- A dispatch into the chat: when it happened, whether it came from the
message-trigger path (`true`) or the random injector (`false`), and the
text sent. -/
structure Dispatch where
  time : Nat
  viaMessageTrigger : Bool
  text : String
deriving DecidableEq, Repr

/-- One event step of the group pipeline.

`inbound` (handler at lines 1201-1258 plus `check_chat_triggers` /
`process_chat_message`): the message joins the chat history; if a trigger
reason is recorded, `process_chat_message` runs and a successful send adds
the reply to the history and counts as a dispatch.

`scan` (`random_chat_task`, lines 1082-1159): the SQL prefilter demands
`enabled`, `trigger_random`, `daily_count < daily_limit` and, unless
`last_random_time` is NULL, at least `random_interval_min` elapsed minutes;
the loop re-checks the elapsed minutes against
`min + r * (max - min)`, skips when the newest chat message is self-authored,
generates from the last-30-messages prompt, and on a truthy generation and
successful send commits `update_chat_counters`.  Note the random path never
consults `cooldown_sec` nor the global auto-reply flag. -/
def chatStep (s : ChatState) (now today : Nat) : ChatEvent → ChatState × Option Dispatch
  | .inbound sender text im irm auto ai aiR sendOk =>
      let msgs1 := ⟨false, sender, text⟩ :: s.msgs
      let trig := check_chat_triggers s.row text im irm now today
      match trig.1 with
      | none => (⟨trig.2, msgs1⟩, none)
      | some _ =>
          let sent := process_chat_message trig.2 auto ai aiR sendOk today now
          match sent.1 with
          | some t => (⟨sent.2, ⟨true, "me", t⟩ :: msgs1⟩, some ⟨now, true, t⟩)
          | none => (⟨sent.2, msgs1⟩, none)
  | .scan r gen sendOk =>
      if s.row.enabled && s.row.trigger_random && s.row.daily_count < s.row.daily_limit &&
          (match s.row.last_random_time with
           | none => true
           | some t0 => (s.row.random_interval_min : ℚ) ≤ ((now : ℚ) - (t0 : ℚ)) / 60) then
        let intervalOk :=
          match s.row.last_random_time with
          | none => true
          | some t0 =>
              let minutes := ((now : ℚ) - (t0 : ℚ)) / 60
              let interval := (s.row.random_interval_min : ℚ) +
                r * ((s.row.random_interval_max : ℚ) - (s.row.random_interval_min : ℚ))
              !(minutes < interval)
        if intervalOk then
          if (match s.msgs.head? with | some m => m.fromMe | none => false) then (s, none)
          else
            match gen (randomPrompt (buildContext s.msgs)) with
            | some resp =>
                if resp != "" then
                  if sendOk then
                    (⟨update_chat_counters s.row today now, ⟨true, "me", resp⟩ :: s.msgs⟩,
                      some ⟨now, false, resp⟩)
                  else (s, none)
                else (s, none)
            | none => (s, none)
        else (s, none)
      else (s, none)

/-- Run a timed event trace through the group pipeline (all within one UTC
day `today`), collecting the dispatches in order. -/
def runChat (s : ChatState) (today : Nat) : List (Nat × ChatEvent) → ChatState × List Dispatch
  | [] => (s, [])
  | (t, e) :: rest =>
      let step := chatStep s t today e
      let tail := runChat step.1 today rest
      (tail.1, (step.2.toList) ++ tail.2)

/-- Cooldown spacing of a dispatch list relative to the time of the
preceding dispatch (or the initial `last_random_time`): every
message-triggered dispatch comes at least `c` seconds after its
predecessor. -/
def dispatchGapsOK (c : Nat) : Option Nat → List Dispatch → Prop
  | _, [] => True
  | none, d :: ds => dispatchGapsOK c (some d.time) ds
  | some t0, d :: ds =>
      (d.viaMessageTrigger = true → t0 + c ≤ d.time) ∧ dispatchGapsOK c (some d.time) ds

/-! ## Concrete stores and traces used to witness the theorems -/

/-- A `reply_counts` store whose peer 7 already stores the default daily cap
(50 replies) with a reset date equal to the current day 10. -/
def atCapCounts : ReplyCounts := fun p => if p = 7 then some ⟨50, 0, 10⟩ else none

/-- A `reply_counts` store with a row for peer 3 dated day 99. -/
def staleCounts : ReplyCounts := fun p => if p = 3 then some ⟨17, 2, 99⟩ else none

/-- The empty `reply_counts` store. -/
def emptyCounts : ReplyCounts := fun _ => none

/-- The empty `auto_reply_state` store. -/
def emptyStates : Nat → Option StateRow := fun _ => none

/-- A small conversation store: peer 1 has an enabled ai rule; message 5 is
a fresh inbound message, message 6 is outbound. -/
def dbEx : DB :=
  { messages := [⟨5, 1, 500, "hello", 900, false⟩, ⟨6, 1, 501, "me", 950, true⟩],
    peers := [⟨1, 100, some "A", none, false⟩],
    rules := [⟨1, 1, true, some "ai", none, some 60⟩],
    states := [] }

/-- The first message of `dbEx` (the expected candidate). -/
def dbExMsg : Message := ⟨5, 1, 500, "hello", 900, false⟩

/-- A `chat_triggers` row with mention and random triggers enabled,
cooldown 300 s, random interval bounds [1,1] minute, daily limit 10,
and no prior fire. -/
def chatRowEx : ChatTriggersRow :=
  ⟨42, true, true, false, false, true, none, 1, 1, none, some 300, 10, 0, 0⟩

/-- A trace violating the cooldown-spacing reading of the spec: a
message-triggered dispatch at `t = 0`, an unanswered inbound message at
`t = 30`, and a random-injector visit at `t = 60` that dispatches although
only 60 s (< cooldown 300 s) have passed. -/
def chatTraceEx : List (Nat × ChatEvent) :=
  [(0, .inbound "al" "hey" true false true true (some "hi") true),
   (30, .inbound "al" "sup" false false true true none true),
   (60, .scan 0 (fun _ => some "yo") true)]

/-- A single-event trace with one mention-triggered inbound message at
`t = 400`. -/
def chatTraceOne : List (Nat × ChatEvent) :=
  [(400, .inbound "bo" "hey" true false true true (some "hi") true)]

/-- `chatRowEx` with a prior fire at `t = 50`. -/
def chatRowFired : ChatTriggersRow :=
  { chatRowEx with last_random_time := some 50 }

instance : IsTotal Message (fun a b => a.id ≤ b.id) :=
  ⟨fun a b => Nat.le_total a.id b.id⟩

instance : IsTrans Message (fun a b => a.id ≤ b.id) :=
  ⟨fun _ _ _ hab hbc => Nat.le_trans hab hbc⟩

/-! ## Theorems -/

/-- C3: resolver fallback chain.  (1) With the local engine configured and
the local backend failing (falsy outcome: timeout/connection error/non-2xx/
empty or absent body) while Claude succeeds, `generate_ai_response` returns
the Claude result.  (2) With the `claude` engine configured the result is
the Claude outcome and is independent of the local backend (no secondary
backend is attempted).  (3) When every attempted backend fails, the text the
dispatch loop resolves in ai mode is exactly `FALLBACK_MESSAGE`; the
resolver is a total function, so generation failure never raises. -/
theorem C3_fallback_chain :
    (∀ localResult claudeResult : Option String,
      pyTruthy localResult = false → pyTruthy claudeResult = true →
        generate_ai_response "local" localResult claudeResult = claudeResult) ∧
    (∀ localResult localResult' claudeResult : Option String,
      generate_ai_response "claude" localResult claudeResult = claudeResult ∧
      generate_ai_response "claude" localResult claudeResult =
        generate_ai_response "claude" localResult' claudeResult) ∧
    (∀ (ai_engine template message_text : String) (localResult claudeResult : Option String),
      message_text ≠ "" →
      pyTruthy localResult = false → pyTruthy claudeResult = false →
        resolveReplyText "ai" template true message_text ai_engine localResult claudeResult =
          FALLBACK_MESSAGE) := by
  refine ⟨?_, ?_, ?_⟩
  · intro l c hl hc
    simp [generate_ai_response, hl, hc]
  · intro l l' c
    simp [generate_ai_response]
  · intro eng tmpl msg l c hmsg hl hc
    have hmsg' : (msg != "") = true := by simpa using hmsg
    by_cases heng : eng = "claude"
    · subst heng
      cases c with
      | none => simp [resolveReplyText, generate_ai_response, hmsg']
      | some s =>
          have hs : s = "" := by simpa [pyTruthy] using hc
          subst hs
          simp [resolveReplyText, generate_ai_response, hmsg']
    · simp [resolveReplyText, generate_ai_response, heng, hmsg', hl, hc]

/-- Witness for C3 at concrete backend outcomes. -/
theorem C3_fallback_chain_witness :
    generate_ai_response "local" none (some "привет") = some "привет" ∧
    generate_ai_response "claude" (some "local-alive") (some "c") = some "c" ∧
    resolveReplyText "ai" "tpl" true "msg" "local" none none = FALLBACK_MESSAGE :=
  ⟨C3_fallback_chain.1 none (some "привет") rfl (by decide),
   (C3_fallback_chain.2.1 (some "local-alive") none (some "c")).1,
   C3_fallback_chain.2.2 "local" "tpl" "msg" none none (by decide) rfl rfl⟩

/-- C9 counterexample: the claim that `generate_response` never returns
control-token-bearing text fails — deleting `</s>` and `<s>` occurrences
can splice the surrounding characters into a fresh control token.  On the
decoded output `"<<s>/s>"` the cleaning pipeline returns `"</s>"`, which is
itself one of the server's `SPECIAL_TOKENS`. -/
theorem C9_control_token_counterexample :
    postprocessResponse "<<s>/s>" 0 = "</s>" ∧ "</s>" ∈ SPECIAL_TOKENS := by
  constructor
  · decide
  · decide

/-- Every canned phrase of the server is at least 2 characters long and is a
member of the list. -/
theorem fallbackResponses_spec :
    ∀ i < FALLBACK_RESPONSES.length,
      2 ≤ (FALLBACK_RESPONSES.getD i "").length ∧
      FALLBACK_RESPONSES.getD i "" ∈ FALLBACK_RESPONSES := by
  decide

/-- C9 amended: after cleaning, a result shorter than 2 characters is
replaced by one of the canned `FALLBACK_RESPONSES`, so for every decoded
model output (and every random choice) the returned text has length at
least 2 — in particular it is never empty.  (The stronger original claim
that the result never bears a control token is refuted by
`C9_control_token_counterexample`.) -/
theorem C9_postprocess_never_empty :
    ∀ (response : String) (pick : Nat),
      2 ≤ (postprocessResponse response pick).length ∧
      ((cleanAnswer response).length < 2 →
        postprocessResponse response pick ∈ FALLBACK_RESPONSES) := by
  intro response pick
  by_cases h : (cleanAnswer response).length < 2
  · have hm : pick % FALLBACK_RESPONSES.length < FALLBACK_RESPONSES.length :=
      Nat.mod_lt _ (by decide)
    obtain ⟨h2, hmem⟩ := fallbackResponses_spec _ hm
    constructor
    · simpa [postprocessResponse, h] using h2
    · intro _
      simpa [postprocessResponse, h] using hmem
  · constructor
    · have : ¬ (cleanAnswer response).length < 2 := h
      simp only [postprocessResponse, if_neg h]
      omega
    · intro hc
      exact absurd hc h

/-- Witness for C9 amended at a concrete short generation. -/
theorem C9_postprocess_never_empty_witness :
    2 ≤ (postprocessResponse "" 0).length ∧ postprocessResponse "" 0 ∈ FALLBACK_RESPONSES :=
  ⟨(C9_postprocess_never_empty "" 0).1, (C9_postprocess_never_empty "" 0).2 (by decide)⟩

/-- C4 counterexample: the daily cap invariant does not hold across every
incrementing path.  With peer 7 already storing the default cap
(50 replies) for the current UTC day 10, one pass of the new-contact
path's `increment_new_contact_reply` — which consults no daily cap —
pushes the stored daily counter to 51 > 50, with no day rollover
involved. -/
theorem C4_daily_cap_counterexample :
    dailyOf atCapCounts 7 = 50 ∧
    (atCapCounts 7).map CountRow.last_reply_date = some 10 ∧
    dailyOf (increment_new_contact_reply atCapCounts 10 7).2 7 = 51 ∧ 50 < 51 := by
  refine ⟨by decide, by decide, by decide, by decide⟩

/-- C4 amended: the invariant holds on the guarded path — one call of
`check_and_update_daily_limit` never lifts a peer's daily counter above the
cap (so counters stay at most the cap whenever only this path increments
them), and at the first check of a new UTC day the counter is reset: the
value compared against the cap is 0, and after a passing check the stored
counter is 1.  The unguarded `increment_new_contact_reply` path can exceed
the cap (`C4_daily_cap_counterexample`). -/
theorem C4_daily_cap_amended :
    ∀ (counts : ReplyCounts) (max_daily today peer : Nat),
      (dailyOf counts peer ≤ max_daily →
        dailyOf (check_and_update_daily_limit counts max_daily today peer).2 peer ≤ max_daily) ∧
      (∀ row, counts peer = some row → row.last_reply_date ≠ today →
        (upsertDaily counts today peer).2 = 0 ∧
        (0 < max_daily →
          (check_and_update_daily_limit counts max_daily today peer).1 = true ∧
          dailyOf (check_and_update_daily_limit counts max_daily today peer).2 peer = 1)) := by
  intro counts max_daily today peer
  constructor
  · intro hle
    cases hrow : counts peer with
    | none =>
        by_cases hcap : 0 ≥ max_daily
        · simp [check_and_update_daily_limit, upsertDaily, hrow, hcap, dailyOf]
        · simp [check_and_update_daily_limit, upsertDaily, hrow, hcap, dailyOf]
          omega
    | some row =>
        by_cases hdate : row.last_reply_date ≠ today
        · by_cases hcap : (0 : Nat) ≥ max_daily
          · simp [check_and_update_daily_limit, upsertDaily, hrow, hdate, hcap, dailyOf]
          · simp [check_and_update_daily_limit, upsertDaily, hrow, hdate, hcap, dailyOf]
            omega
        · have hday : row.last_reply_date = today := by
            by_contra hcon
            exact hdate hcon
          have hpre : dailyOf counts peer = row.daily_replies := by
            simp [dailyOf, hrow]
          by_cases hcap : row.daily_replies ≥ max_daily
          · simp [check_and_update_daily_limit, upsertDaily, hrow, hday, hcap, dailyOf]
            omega
          · simp [check_and_update_daily_limit, upsertDaily, hrow, hday, hcap, dailyOf]
            omega
  · intro row hrow hdate
    refine ⟨by simp [upsertDaily, hrow, hdate], ?_⟩
    intro hcap
    have hge : ¬ ((0 : Nat) ≥ max_daily) := by omega
    constructor
    · simp [check_and_update_daily_limit, upsertDaily, hrow, hdate, hge]
    · simp [check_and_update_daily_limit, upsertDaily, hrow, hdate, hge, dailyOf]

/-- Witness for C4 amended: peer 3's counter, stale since day 99, is reset
and consumed to 1 at the first check of day 100 and stays within the cap. -/
theorem C4_daily_cap_amended_witness :
    (dailyOf staleCounts 3 ≤ 50 →
      dailyOf (check_and_update_daily_limit staleCounts 50 100 3).2 3 ≤ 50) ∧
    (upsertDaily staleCounts 100 3).2 = 0 ∧
    (check_and_update_daily_limit staleCounts 50 100 3).1 = true ∧
    dailyOf (check_and_update_daily_limit staleCounts 50 100 3).2 3 = 1 := by
  have h := C4_daily_cap_amended staleCounts 50 100 3
  have h2 := h.2 ⟨17, 2, 99⟩ (by decide) (by decide)
  exact ⟨h.1, h2.1, (h2.2 (by decide)).1, (h2.2 (by decide)).2⟩

/-- `increment_new_contact_reply` never decreases any lifetime new-contact
counter. -/
theorem ncOf_increment_mono (counts : ReplyCounts) (today peer p : Nat) :
    ncOf counts p ≤ ncOf (increment_new_contact_reply counts today peer).2 p := by
  cases hrow : counts peer with
  | none =>
      by_cases hp : p = peer
      · subst hp
        simp [increment_new_contact_reply, hrow, ncOf]
      · simp [increment_new_contact_reply, hrow, ncOf, hp]
  | some row =>
      by_cases hp : p = peer
      · subst hp
        simp [increment_new_contact_reply, hrow, ncOf]
      · simp [increment_new_contact_reply, hrow, ncOf, hp]

/-- `check_and_update_daily_limit` leaves every lifetime new-contact
counter exactly unchanged. -/
theorem ncOf_check_daily_eq (counts : ReplyCounts) (mx today peer p : Nat) :
    ncOf (check_and_update_daily_limit counts mx today peer).2 p = ncOf counts p := by
  cases hrow : counts peer with
  | none =>
      by_cases hp : p = peer
      · subst hp
        simp only [check_and_update_daily_limit, upsertDaily, hrow, ncOf]
        repeat' split
        all_goals simp [hrow]
      · simp only [check_and_update_daily_limit, upsertDaily, hrow, ncOf]
        repeat' split
        all_goals simp [hp]
  | some row =>
      by_cases hp : p = peer
      · subst hp
        simp only [check_and_update_daily_limit, upsertDaily, hrow, ncOf]
        repeat' split
        all_goals simp [hrow]
      · simp only [check_and_update_daily_limit, upsertDaily, hrow, ncOf]
        repeat' split
        all_goals simp [hp]

/-- C5: new-contact lifetime cap.  (1) For a brand-new uncurated contact
(no `reply_counts` row) with `new_contact_mode` `ai` or `template` (the two
non-`off` modes the settings surface stores) and the default lifetime cap 5,
six successive inbound messages with successful sends produce replies on
exactly the first five, none on the sixth, and leave the lifetime counter at
5.  (2) `process_new_contact` never decreases a lifetime counter, and
(3) the daily-limit check never changes one — the counter is lifetime and
never reset by any `reply_counts` path of the worker. -/
theorem C5_new_contact_lifetime_cap :
    (∀ (counts : ReplyCounts) (peer : Nat) (mode ncTemplate : String)
        (aiResult : Option String) (today : Nat),
      counts peer = none → (mode = "ai" ∨ mode = "template") →
        (runNewContacts counts peer mode ncTemplate aiResult 5 today 6).1 =
          [true, true, true, true, true, false] ∧
        ncOf (runNewContacts counts peer mode ncTemplate aiResult 5 today 6).2 peer = 5) ∧
    (∀ (counts : ReplyCounts) (peer : Nat) (mode ncTemplate : String)
        (aiResult : Option String) (max_new today : Nat) (sendOk : Bool) (p : Nat),
      ncOf counts p ≤
        ncOf (process_new_contact counts peer mode ncTemplate aiResult max_new today sendOk).2 p) ∧
    (∀ (counts : ReplyCounts) (max_daily today peer p : Nat),
      ncOf (check_and_update_daily_limit counts max_daily today peer).2 p = ncOf counts p) := by
  refine ⟨?_, ?_, ?_⟩
  · intro counts peer tmplMode tmpl ai today h hmode
    rcases hmode with hm | hm
    · subst hm
      simp [runNewContacts, process_new_contact, check_new_contact_limit,
        increment_new_contact_reply, ncOf, h]
    · subst hm
      simp [runNewContacts, process_new_contact, check_new_contact_limit,
        increment_new_contact_reply, ncOf, h]
  · intro counts peer mode tmpl ai mx today sendOk p
    by_cases h1 : mode = "off" <;> by_cases h2 : mode = "template" <;>
      by_cases h3 : mode = "ai" <;>
        by_cases h4 : check_new_contact_limit counts mx peer = true <;>
          by_cases h5 : sendOk = true <;>
            simp [process_new_contact, h1, h2, h3, h4, h5] <;>
              first
                | exact Nat.le_refl _
                | exact ncOf_increment_mono counts today peer p
  · intro counts mx today peer p
    exact ncOf_check_daily_eq counts mx today peer p

/-- Witness for C5 at a concrete empty store. -/
theorem C5_new_contact_lifetime_cap_witness :
    (runNewContacts emptyCounts 3 "ai" "tpl" none 5 100 6).1 =
      [true, true, true, true, true, false] ∧
    ncOf (runNewContacts emptyCounts 3 "ai" "tpl" none 5 100 6).2 3 = 5 ∧
    ncOf emptyCounts 3 ≤
      ncOf (process_new_contact emptyCounts 3 "ai" "tpl" none 5 100 true).2 3 := by
  have h := C5_new_contact_lifetime_cap.1 emptyCounts 3 "ai" "tpl" none 100 rfl (Or.inl rfl)
  exact ⟨h.1, h.2, C5_new_contact_lifetime_cap.2.1 emptyCounts 3 "ai" "tpl" none 5 100 true 3⟩

/-- C2: dispatch ordering and failure atomicity of the candidate loop.
Whenever the loop body processes a candidate, (1) the resulting
`reply_counts` are exactly those produced by `check_and_update_daily_limit`
— the quota effect happens before, and independently of, the send attempt;
(2) a text is dispatched exactly when the quota check allowed it and the
send succeeded; (3) on a confirmed send the watermark row holds the
candidate's message id and the reply time `now`; (4) on a failed send, and
likewise on a refused quota check, the `auto_reply_state` table is left
completely unchanged, so the candidate remains visible to later cycles. -/
theorem C2_dispatch_ordering :
    ∀ (st : WorkerState) (cand : Message) (template reply_mode : String)
      (max_daily today now : Nat) (ai_enabled : Bool) (ai_engine : String)
      (localResult claudeResult : Option String) (sendOk : Bool)
      (ok : Bool) (counts1 : ReplyCounts) (sent : Option String) (st1 : WorkerState),
      check_and_update_daily_limit st.counts max_daily today cand.peer_id = (ok, counts1) →
      process_candidate st cand template reply_mode max_daily today now ai_enabled ai_engine
        localResult claudeResult sendOk = (sent, st1) →
      st1.counts = counts1 ∧
      sent.isSome = (ok && sendOk) ∧
      (ok = true → sendOk = true →
        st1.states cand.peer_id = some ⟨ACCOUNT_ID, cand.peer_id, some now, some cand.id⟩) ∧
      (sendOk = false → st1.states = st.states) ∧
      (ok = false → st1.states = st.states) := by
  intro st cand tmpl mode mx today now ai eng l c sendOk ok counts1 sent st1 hcheck hproc
  cases ok with
  | false =>
      simp only [process_candidate, hcheck] at hproc
      simp at hproc
      refine ⟨?_, ?_, ?_, ?_, ?_⟩
      · rw [← hproc.2]
      · rw [← hproc.1]
        simp
      · intro hok
        exact absurd hok (by simp)
      · intro _
        rw [← hproc.2]
      · intro _
        rw [← hproc.2]
  | true =>
      cases sendOk with
      | false =>
          simp only [process_candidate, hcheck] at hproc
          simp at hproc
          refine ⟨?_, ?_, ?_, ?_, ?_⟩
          · rw [← hproc.2]
          · rw [← hproc.1]
            simp
          · intro _ hsend
            exact absurd hsend (by simp)
          · intro _
            rw [← hproc.2]
          · intro hok
            exact absurd hok (by simp)
      | true =>
          simp only [process_candidate, hcheck] at hproc
          simp at hproc
          refine ⟨?_, ?_, ?_, ?_, ?_⟩
          · rw [← hproc.2]
          · rw [← hproc.1]
            simp
          · intro _ _
            rw [← hproc.2]
            simp [update_reply_state]
          · intro hsend
            exact absurd hsend (by simp)
          · intro hok
            exact absurd hok (by simp)

/-- Witness for C2: a failed send consumes the quota slot but leaves the
watermark untouched. -/
theorem C2_dispatch_ordering_witness :
    (process_candidate ⟨emptyCounts, emptyStates⟩ dbExMsg "" "ai" 50 100 1000 true "local"
        none none false).2.counts =
      (check_and_update_daily_limit emptyCounts 50 100 dbExMsg.peer_id).2 ∧
    (process_candidate ⟨emptyCounts, emptyStates⟩ dbExMsg "" "ai" 50 100 1000 true "local"
        none none false).1.isSome = false ∧
    (process_candidate ⟨emptyCounts, emptyStates⟩ dbExMsg "" "ai" 50 100 1000 true "local"
        none none false).2.states = emptyStates := by
  have h := C2_dispatch_ordering ⟨emptyCounts, emptyStates⟩ dbExMsg "" "ai" 50 100 1000 true
    "local" none none false
    (check_and_update_daily_limit emptyCounts 50 100 dbExMsg.peer_id).1
    (check_and_update_daily_limit emptyCounts 50 100 dbExMsg.peer_id).2
    (process_candidate ⟨emptyCounts, emptyStates⟩ dbExMsg "" "ai" 50 100 1000 true "local"
        none none false).1
    (process_candidate ⟨emptyCounts, emptyStates⟩ dbExMsg "" "ai" 50 100 1000 true "local"
        none none false).2
    rfl rfl
  refine ⟨h.1, ?_, h.2.2.2.1 rfl⟩
  rw [h.2.1]
  simp

/-- C1: candidate selection.  Every message in a batch returned by
`get_candidates_for_reply` comes from the store, is inbound, lies within the
5-minute recency window, belongs to an existing peer carrying an enabled
rule whose effective mode is not `off`, sits above the peer's watermark
whenever one exists, and respects the rule's minimum interval whenever a
last reply time exists; the batch is ascending by message id and holds at
most 10 entries.  The underlying query is a pure `SELECT`, embedded as a
read-only function of the store — no quota is consulted or consumed. -/
theorem C1_candidate_selection :
    ∀ (db : DB) (now : Nat),
      (∀ m ∈ get_candidates_for_reply db now,
        m ∈ db.messages ∧ m.from_me = false ∧ now < m.date + 300 ∧
        (peerFor db m.peer_id).isSome = true ∧
        (∃ r, ruleFor db m.peer_id = some r ∧ r.enabled = true ∧
          r.reply_mode.getD "ai" ≠ "off" ∧
          (∀ s, stateFor db m.peer_id = some s →
            (∀ lm, s.last_message_id = some lm → lm < m.id) ∧
            (∀ lt, s.last_reply_time = some lt → lt + r.min_interval_sec.getD 60 ≤ now)))) ∧
      List.Pairwise (fun a b : Message => a.id ≤ b.id) (get_candidates_for_reply db now) ∧
      (get_candidates_for_reply db now).length ≤ 10 := by
  intro db now
  refine ⟨?_, ?_, ?_⟩
  · intro m hm
    have hm' : m ∈ List.insertionSort (fun a b : Message => a.id ≤ b.id)
        (db.messages.filter (isCandidate db now)) :=
      (List.take_sublist 10 _).subset hm
    have hm'' : m ∈ db.messages.filter (isCandidate db now) :=
      (List.mem_insertionSort _).mp hm'
    obtain ⟨hmem, hpred⟩ := List.mem_filter.mp hm''
    refine ⟨hmem, ?_⟩
    cases hr : ruleFor db m.peer_id with
    | none => simp [isCandidate, hr] at hpred
    | some r =>
        cases hp : peerFor db m.peer_id with
        | none => simp [isCandidate, hr, hp] at hpred
        | some pr =>
            have henabled : r.enabled = true := by
              have hfind := List.find?_some hr
              simp at hfind
              exact hfind.2
            cases hs : stateFor db m.peer_id with
            | none =>
                simp [isCandidate, hr, hp, hs] at hpred
                refine ⟨hpred.1.1, hpred.1.2, by simp [hp], r, rfl, henabled, hpred.2, ?_⟩
                intro s hsome
                exact absurd hsome (by simp)
            | some s =>
                simp [isCandidate, hr, hp, hs] at hpred
                refine ⟨hpred.1.1.1, hpred.1.1.2, by simp [hp], r, rfl, henabled,
                  hpred.1.2, ?_⟩
                intro s' hsome
                have hss : s' = s := (Option.some.inj hsome).symm
                subst hss
                constructor
                · intro lm hlm
                  have hcond := hpred.2.1
                  rw [hlm] at hcond
                  simpa using hcond
                · intro lt hlt
                  have hcond := hpred.2.2
                  rw [hlt] at hcond
                  simpa using hcond
  · have hsorted : List.Pairwise (fun a b : Message => a.id ≤ b.id)
        (List.insertionSort (fun a b : Message => a.id ≤ b.id)
          (db.messages.filter (isCandidate db now))) :=
      List.sorted_insertionSort _ _
    exact List.Pairwise.sublist (List.take_sublist 10 _) hsorted
  · unfold get_candidates_for_reply
    exact List.length_take_le 10 _

/-- Witness for C1 at the concrete store `dbEx` at `now = 1000`: message 5
is in the batch and satisfies the selection predicate, and the batch is
sorted and bounded. -/
theorem C1_candidate_selection_witness :
    (dbExMsg ∈ dbEx.messages ∧ dbExMsg.from_me = false ∧ 1000 < dbExMsg.date + 300 ∧
      (peerFor dbEx dbExMsg.peer_id).isSome = true ∧
      (∃ r, ruleFor dbEx dbExMsg.peer_id = some r ∧ r.enabled = true ∧
        r.reply_mode.getD "ai" ≠ "off" ∧
        (∀ s, stateFor dbEx dbExMsg.peer_id = some s →
          (∀ lm, s.last_message_id = some lm → lm < dbExMsg.id) ∧
          (∀ lt, s.last_reply_time = some lt →
            lt + r.min_interval_sec.getD 60 ≤ 1000)))) ∧
    (get_candidates_for_reply dbEx 1000).length ≤ 10 := by
  have h := C1_candidate_selection dbEx 1000
  exact ⟨h.1 dbExMsg (by decide), h.2.2⟩

/-- `check_chat_limits` only touches the daily counter and its reset date. -/
theorem check_chat_limits_preserves (row : ChatTriggersRow) (today : Nat) :
    (check_chat_limits row today).2.cooldown_sec = row.cooldown_sec ∧
    (check_chat_limits row today).2.last_random_time = row.last_random_time := by
  unfold check_chat_limits
  repeat' split
  all_goals simp

/-- `check_chat_triggers` only touches the daily counter and its reset
date. -/
theorem check_chat_triggers_preserves (row : ChatTriggersRow) (msg : String)
    (im irm : Bool) (now today : Nat) :
    (check_chat_triggers row msg im irm now today).2.cooldown_sec = row.cooldown_sec ∧
    (check_chat_triggers row msg im irm now today).2.last_random_time =
      row.last_random_time := by
  simp only [check_chat_triggers]
  repeat' split
  all_goals
    first
      | exact ⟨rfl, rfl⟩
      | exact check_chat_limits_preserves row today

/-- A trigger reason is only recorded when the cooldown gate did not
block. -/
theorem check_chat_triggers_not_blocked (row : ChatTriggersRow) (msg : String)
    (im irm : Bool) (now today : Nat) (reason : String) :
    (check_chat_triggers row msg im irm now today).1 = some reason →
    cooldownBlocks row now = false := by
  intro h
  simp only [check_chat_triggers] at h
  by_cases hen : (!row.enabled) = true
  · rw [if_pos hen] at h
    exact absurd h (by simp)
  · rw [if_neg hen] at h
    by_cases hlim : (!(check_chat_limits row today).1) = true
    · rw [if_pos hlim] at h
      exact absurd h (by simp)
    · rw [if_neg hlim] at h
      by_cases hcool : cooldownBlocks row now = true
      · rw [if_pos hcool] at h
        exact absurd h (by simp)
      · exact Bool.not_eq_true _ ▸ (by simpa using hcool)

/-- When `process_chat_message` confirms a send, its resulting row is
exactly `update_chat_counters` of its input; otherwise the row is
returned unchanged. -/
theorem process_chat_message_row (row : ChatTriggersRow) (auto ai : Bool)
    (aiR : Option String) (sendOk : Bool) (today now : Nat) :
    (∀ t, (process_chat_message row auto ai aiR sendOk today now).1 = some t →
      (process_chat_message row auto ai aiR sendOk today now).2 =
        update_chat_counters row today now) ∧
    ((process_chat_message row auto ai aiR sendOk today now).1 = none →
      (process_chat_message row auto ai aiR sendOk today now).2 = row) := by
  unfold process_chat_message
  repeat' split
  all_goals simp

/-- Step characterization of the group pipeline shared by the cooldown and
shared-timer theorems: `cooldown_sec` is never written; a step without a
dispatch leaves `last_random_time` unchanged; a step with a dispatch stamps
the dispatch with the current time, sets `last_random_time` to the current
time, and, when the dispatch came from the message-trigger path, the
cooldown gate had not blocked on the pre-step row. -/
theorem chatStep_spec (s : ChatState) (now today : Nat) (e : ChatEvent) :
    (chatStep s now today e).1.row.cooldown_sec = s.row.cooldown_sec ∧
    ((chatStep s now today e).2 = none →
      (chatStep s now today e).1.row.last_random_time = s.row.last_random_time) ∧
    (∀ d, (chatStep s now today e).2 = some d →
      d.time = now ∧
      (chatStep s now today e).1.row.last_random_time = some now ∧
      (d.viaMessageTrigger = true → cooldownBlocks s.row now = false)) := by
  cases e with
  | inbound sender text im irm auto ai aiR sendOk =>
      simp only [chatStep]
      cases htrig : (check_chat_triggers s.row text im irm now today).1 with
      | none =>
          simp only []
          refine ⟨(check_chat_triggers_preserves s.row text im irm now today).1, ?_, ?_⟩
          · intro _
            exact (check_chat_triggers_preserves s.row text im irm now today).2
          · intro d hd
            exact absurd hd (by simp)
      | some reason =>
          cases hsent : (process_chat_message
              (check_chat_triggers s.row text im irm now today).2 auto ai aiR sendOk
              today now).1 with
          | none =>
              simp only []
              have hrow := (process_chat_message_row
                (check_chat_triggers s.row text im irm now today).2 auto ai aiR sendOk
                today now).2 hsent
              refine ⟨?_, ?_, ?_⟩
              · rw [hrow]
                exact (check_chat_triggers_preserves s.row text im irm now today).1
              · intro _
                rw [hrow]
                exact (check_chat_triggers_preserves s.row text im irm now today).2
              · intro d hd
                exact absurd hd (by simp)
          | some t =>
              simp only []
              have hrow := (process_chat_message_row
                (check_chat_triggers s.row text im irm now today).2 auto ai aiR sendOk
                today now).1 t hsent
              refine ⟨?_, ?_, ?_⟩
              · rw [hrow]
                exact (check_chat_triggers_preserves s.row text im irm now today).1
              · intro hcon
                exact absurd hcon (by simp)
              · intro d hd
                have hd' : ({ time := now, viaMessageTrigger := true, text := t } :
                    Dispatch) = d := Option.some.inj hd
                subst hd'
                refine ⟨rfl, ?_, ?_⟩
                · rw [hrow]
                  rfl
                · intro _
                  exact check_chat_triggers_not_blocked s.row text im irm now today
                    reason htrig
  | scan r gen sendOk =>
      simp only [chatStep]
      repeat' split
      all_goals
        refine ⟨rfl, ?_, ?_⟩ <;>
          first
            | (intro _; rfl)
            | (intro d hd
               have hd' : ({ time := now, viaMessageTrigger := false, text := _ } :
                   Dispatch) = d := Option.some.inj hd
               subst hd'
               exact ⟨rfl, rfl, fun hvia => absurd hvia (by simp)⟩)
            | (intro d hd; exact absurd hd (by simp))
            | (intro hcon; exact absurd hcon (by simp))

/-- When the cooldown gate does not block at `now`, and a previous fire
`t0 ≤ now` is recorded with cooldown `c`, at least `c` seconds have
passed. -/
theorem cooldownBlocks_false_le {row : ChatTriggersRow} {now c t0 : Nat}
    (hc : row.cooldown_sec = some c) (ht : row.last_random_time = some t0)
    (hb : cooldownBlocks row now = false) (hle : t0 ≤ now) : t0 + c ≤ now := by
  unfold cooldownBlocks at hb
  rw [hc, ht] at hb
  by_cases h0 : c = 0
  · omega
  · have hx : ¬ ((now : ℚ) - (t0 : ℚ) < (c : ℚ)) := by
      intro hlt
      simp [h0, hlt] at hb
    have h' : (c : ℚ) ≤ (now : ℚ) - (t0 : ℚ) := not_lt.mp hx
    have h'' : ((t0 + c : Nat) : ℚ) ≤ (now : ℚ) := by
      push_cast
      linarith
    exact_mod_cast h''

/-- C7 counterexample: the universal reading — two dispatches into a chat
with a configured cooldown never closer than `cooldown_sec` — fails,
because the random injector ignores `cooldown_sec`.  On `chatRowEx`
(cooldown 300 s, random interval [1,1] min) the trace `chatTraceEx`
produces a message-triggered dispatch at `t = 0` and a random dispatch at
`t = 60`, only 60 s (< 300 s) apart. -/
theorem C7_cooldown_counterexample :
    chatRowEx.cooldown_sec = some 300 ∧
    (runChat ⟨chatRowEx, []⟩ 0 chatTraceEx).2 =
      [⟨0, true, "hi"⟩, ⟨60, false, "yo"⟩] ∧
    (60 : Nat) - 0 < 300 := by
  refine ⟨rfl, ?_, by norm_num⟩
  have hhi : ¬ ("hi" : String) = "" := by decide
  have hyo : ¬ ("yo" : String) = "" := by decide
  simp only [runChat, chatStep, chatTraceEx, chatRowEx, check_chat_triggers,
    check_chat_limits, cooldownBlocks, process_chat_message, update_chat_counters,
    pyTruthy]
  norm_num [hhi, hyo]

/-- C7 amended: cooldown spacing holds for the message-trigger path — in any
event trace with non-decreasing timestamps (and any recorded previous fire
preceding the trace), every message-triggered dispatch occurs at least
`cooldown_sec` seconds after the immediately preceding dispatch of either
kind (or after the initial `last_random_time`).  The original universal
claim over all dispatches is refuted by `C7_cooldown_counterexample`: the
random injector is not subject to `cooldown_sec`. -/
theorem C7_cooldown_amended :
    ∀ (evs : List (Nat × ChatEvent)) (s : ChatState) (today c : Nat),
      s.row.cooldown_sec = some c →
      List.Pairwise (fun a b => a ≤ b) (evs.map Prod.fst) →
      (∀ t0, s.row.last_random_time = some t0 → ∀ p ∈ evs, t0 ≤ p.1) →
      dispatchGapsOK c s.row.last_random_time (runChat s today evs).2 := by
  intro evs
  induction evs with
  | nil =>
      intro s today c _ _ _
      cases s.row.last_random_time <;> exact trivial
  | cons hd rest ih =>
      intro s today c hcool hmono hbound
      obtain ⟨t, e⟩ := hd
      have hspec := chatStep_spec s t today e
      have hmono' : List.Pairwise (fun a b => a ≤ b) (rest.map Prod.fst) :=
        (List.pairwise_cons.mp (by simpa using hmono)).2
      have hheadle : ∀ p ∈ rest, t ≤ p.1 :=
        fun p hp => (List.pairwise_cons.mp (by simpa using hmono)).1 p.1
          (List.mem_map.mpr ⟨p, hp, rfl⟩)
      cases hd2 : (chatStep s t today e).2 with
      | none =>
          have hlrt := hspec.2.1 hd2
          have hrest := ih (chatStep s t today e).1 today c
            (hspec.1.trans hcool)
            hmono'
            (by
              intro t0 h0 p hp
              rw [hlrt] at h0
              exact hbound t0 h0 p (List.mem_cons_of_mem _ hp))
          rw [hlrt] at hrest
          simpa [runChat, hd2] using hrest
      | some d =>
          obtain ⟨hdtime, hdlrt, hdvia⟩ := hspec.2.2 d hd2
          have hrest := ih (chatStep s t today e).1 today c
            (hspec.1.trans hcool)
            hmono'
            (by
              intro t0 h0 p hp
              rw [hdlrt] at h0
              have ht0 : t0 = t := (Option.some.inj h0).symm
              subst ht0
              exact hheadle p hp)
          rw [hdlrt] at hrest
          cases hlrt0 : s.row.last_random_time with
          | none =>
              simp only [runChat, hd2, hlrt0, Option.toList, dispatchGapsOK]
              rw [hdtime]
              simpa using hrest
          | some t0 =>
              have hgap : d.viaMessageTrigger = true → t0 + c ≤ d.time := by
                intro hvia
                have hblock := hdvia hvia
                have hle : t0 ≤ t := hbound t0 hlrt0 (t, e) (List.mem_cons_self _ _)
                have hc := cooldownBlocks_false_le hcool hlrt0 hblock hle
                omega
              simp only [runChat, hd2, hlrt0, Option.toList, dispatchGapsOK]
              refine ⟨hgap, ?_⟩
              rw [hdtime]
              simpa using hrest

/-- Witness for C7 amended: a single mention-triggered event at `t = 400`
against a chat last fired at `t = 50` with cooldown 300 respects the
spacing. -/
theorem C7_cooldown_amended_witness :
    dispatchGapsOK 300 (some 50) (runChat ⟨chatRowFired, []⟩ 0 chatTraceOne).2 := by
  have h := C7_cooldown_amended chatTraceOne ⟨chatRowFired, []⟩ 0 300 rfl
    (by simp [chatTraceOne])
    (by
      intro t0 h0 p hp
      have ht0 : (50 : Nat) = t0 := Option.some.inj h0
      simp only [chatTraceOne, List.mem_singleton] at hp
      subst hp
      omega)
  simpa using h

/-- C6: group trigger evaluation.  For an enabled chat, the daily cap and
the cooldown are evaluated before any trigger: if either blocks, no reason
is recorded.  Otherwise the first matching trigger in priority order
mention > reply-to-self > keyword wins, each branch gated by its own enable
flag — in particular a message satisfying both the mention and the keyword
trigger records `"mention"` (the mention conjunct holds regardless of any
keyword match) — and when no gated trigger matches, no reason is
recorded. -/
theorem C6_trigger_priority :
    ∀ (row : ChatTriggersRow) (message_text : String) (is_mention is_reply_to_me : Bool)
      (now today : Nat),
      row.enabled = true →
      ((check_chat_limits row today).1 = false →
        (check_chat_triggers row message_text is_mention is_reply_to_me now today).1 =
          none) ∧
      (cooldownBlocks row now = true →
        (check_chat_triggers row message_text is_mention is_reply_to_me now today).1 =
          none) ∧
      ((check_chat_limits row today).1 = true → cooldownBlocks row now = false →
        ((row.trigger_mention && is_mention) = true →
          (check_chat_triggers row message_text is_mention is_reply_to_me now today).1 =
            some "mention") ∧
        ((row.trigger_mention && is_mention) = false →
          (row.trigger_reply && is_reply_to_me) = true →
          (check_chat_triggers row message_text is_mention is_reply_to_me now today).1 =
            some "reply") ∧
        ((row.trigger_mention && is_mention) = false →
          (row.trigger_reply && is_reply_to_me) = false →
          (row.trigger_keywords && pyTruthy row.keywords &&
            keywordHit (row.keywords.getD "") message_text) = true →
          (check_chat_triggers row message_text is_mention is_reply_to_me now today).1 =
            some "keyword") ∧
        ((row.trigger_mention && is_mention) = false →
          (row.trigger_reply && is_reply_to_me) = false →
          (row.trigger_keywords && pyTruthy row.keywords &&
            keywordHit (row.keywords.getD "") message_text) = false →
          (check_chat_triggers row message_text is_mention is_reply_to_me now today).1 =
            none)) := by
  intro row msg im irm now today hen
  refine ⟨?_, ?_, ?_⟩
  · intro hlim
    simp [check_chat_triggers, hen, hlim]
  · intro hcool
    by_cases hlim : (check_chat_limits row today).1 = true
    · simp [check_chat_triggers, hen, hlim, hcool]
    · simp only [Bool.not_eq_true] at hlim
      simp [check_chat_triggers, hen, hlim]
  · intro hlim hcool
    refine ⟨?_, ?_, ?_, ?_⟩
    · intro hm
      simp [check_chat_triggers, hen, hlim, hcool, hm]
    · intro hm hr
      simp [check_chat_triggers, hen, hlim, hcool, hm, hr]
    · intro hm hr hk
      simp [check_chat_triggers, hen, hlim, hcool, hm, hr, hk]
    · intro hm hr hk
      simp [check_chat_triggers, hen, hlim, hcool, hm, hr, hk]

/-- Witness for C6: a chat with mention and keyword triggers enabled, whose
message both mentions the account and contains a keyword, records
`"mention"`; and a chat at its daily cap records nothing. -/
theorem C6_trigger_priority_witness :
    (check_chat_triggers
      ⟨42, true, true, false, true, false, some "пиво, bot", 1, 1, none, some 300, 10, 0, 5⟩
      "the BOT is here" true false 900 5).1 = some "mention" ∧
    (check_chat_triggers
      ⟨42, true, true, false, true, false, some "пиво, bot", 1, 1, none, some 300, 10, 10, 5⟩
      "the BOT is here" true false 900 5).1 = none := by
  constructor
  · exact ((C6_trigger_priority
      ⟨42, true, true, false, true, false, some "пиво, bot", 1, 1, none, some 300, 10, 0, 5⟩
      "the BOT is here" true false 900 5 rfl).2.2 (by decide) rfl).1 rfl
  · exact (C6_trigger_priority
      ⟨42, true, true, false, true, false, some "пиво, bot", 1, 1, none, some 300, 10, 10, 5⟩
      "the BOT is here" true false 900 5 rfl).1 (by decide)

/-- C8: random injector.  Positive direction: for a scan visiting a chat
with the random trigger enabled, daily count below the limit, elapsed
minutes since the recorded `last_random_time` at least the value
`min + r·(max−min)` sampled from `[min,max]` (for `r ∈ [0,1]` and
`min ≤ max` the sample lies in `[min,max]`), whose newest chat message is
not self-authored, and whose generation from the last-30-messages prompt
returns a truthy text that sends successfully, the step dispatches that
text exactly once and commits `update_chat_counters` — the same
day-rollover increment and `last_random_time := now` reset a normal
trigger performs.  Negative direction: if the trigger is disabled, the
daily limit is reached, the elapsed minutes fall short of the sampled
value, the newest message is self-authored, the generation outcome is
falsy, or the send fails, the scan sends nothing and leaves the chat state
untouched. -/
theorem C8_random_injector :
    ∀ (s : ChatState) (now today : Nat) (r : ℚ) (gen : String → Option String)
      (sendOk : Bool) (resp : String) (t0 : Nat),
      (s.row.enabled = true → s.row.trigger_random = true →
        s.row.daily_count < s.row.daily_limit →
        s.row.last_random_time = some t0 →
        0 ≤ r → r ≤ 1 → s.row.random_interval_min ≤ s.row.random_interval_max →
        (s.row.random_interval_min : ℚ) +
            r * ((s.row.random_interval_max : ℚ) - (s.row.random_interval_min : ℚ)) ≤
          ((now : ℚ) - (t0 : ℚ)) / 60 →
        (s.msgs.head?.map ChatMsg.fromMe).getD false = false →
        gen (randomPrompt (buildContext s.msgs)) = some resp → resp ≠ "" →
        sendOk = true →
        ((s.row.random_interval_min : ℚ) ≤
            (s.row.random_interval_min : ℚ) +
              r * ((s.row.random_interval_max : ℚ) - (s.row.random_interval_min : ℚ)) ∧
          (s.row.random_interval_min : ℚ) +
              r * ((s.row.random_interval_max : ℚ) - (s.row.random_interval_min : ℚ)) ≤
            (s.row.random_interval_max : ℚ)) ∧
        chatStep s now today (.scan r gen sendOk) =
          (⟨update_chat_counters s.row today now, ⟨true, "me", resp⟩ :: s.msgs⟩,
            some ⟨now, false, resp⟩)) ∧
      (s.row.trigger_random = false →
        chatStep s now today (.scan r gen sendOk) = (s, none)) ∧
      (s.row.daily_limit ≤ s.row.daily_count →
        chatStep s now today (.scan r gen sendOk) = (s, none)) ∧
      (s.row.last_random_time = some t0 →
        ((now : ℚ) - (t0 : ℚ)) / 60 <
          (s.row.random_interval_min : ℚ) +
            r * ((s.row.random_interval_max : ℚ) - (s.row.random_interval_min : ℚ)) →
        chatStep s now today (.scan r gen sendOk) = (s, none)) ∧
      ((s.msgs.head?.map ChatMsg.fromMe).getD false = true →
        chatStep s now today (.scan r gen sendOk) = (s, none)) ∧
      (pyTruthy (gen (randomPrompt (buildContext s.msgs))) = false →
        chatStep s now today (.scan r gen sendOk) = (s, none)) ∧
      (sendOk = false →
        chatStep s now today (.scan r gen sendOk) = (s, none)) := by
  intro s now today r gen sendOk resp t0
  refine ⟨?_, ?_, ?_, ?_, ?_, ?_, ?_⟩
  · intro hen hrand hdaily hlrt hr0 hr1 hminmax hsample hnotmine hgen hresp hsend
    have hinterval : (s.row.random_interval_min : ℚ) ≤
        (s.row.random_interval_min : ℚ) +
          r * ((s.row.random_interval_max : ℚ) - (s.row.random_interval_min : ℚ)) := by
      have hmm : (s.row.random_interval_min : ℚ) ≤ (s.row.random_interval_max : ℚ) := by
        exact_mod_cast hminmax
      nlinarith
    have hintervalmax : (s.row.random_interval_min : ℚ) +
          r * ((s.row.random_interval_max : ℚ) - (s.row.random_interval_min : ℚ)) ≤
        (s.row.random_interval_max : ℚ) := by
      have hmm : (s.row.random_interval_min : ℚ) ≤ (s.row.random_interval_max : ℚ) := by
        exact_mod_cast hminmax
      nlinarith
    refine ⟨⟨hinterval, hintervalmax⟩, ?_⟩
    have hpre : (s.row.random_interval_min : ℚ) ≤ ((now : ℚ) - (t0 : ℚ)) / 60 :=
      le_trans hinterval hsample
    have hresp' : (resp != "") = true := by simpa using hresp
    have hnm : (match s.msgs.head? with
        | some m => m.fromMe
        | none => false) = false := by
      cases hh : s.msgs.head? with
      | none => rfl
      | some m =>
          rw [hh] at hnotmine
          simpa using hnotmine
    simp [chatStep, hen, hrand, hdaily, hlrt, hpre, not_lt.mpr hsample, hnm,
      hgen, hresp', hsend]
  · intro hrand
    simp [chatStep, hrand]
  · intro hdaily
    simp [chatStep, not_lt.mpr hdaily]
  · intro hlrt hshort
    by_cases hpre : (s.row.random_interval_min : ℚ) ≤ ((now : ℚ) - (t0 : ℚ)) / 60
    · simp [chatStep, hlrt, hpre, hshort]
    · simp [chatStep, hlrt, hpre]
  · intro hmine
    have hnm : (match s.msgs.head? with
        | some m => m.fromMe
        | none => false) = true := by
      cases hh : s.msgs.head? with
      | none =>
          rw [hh] at hmine
          simp at hmine
      | some m =>
          rw [hh] at hmine
          simpa using hmine
    simp only [chatStep]
    repeat' split
    all_goals simp_all
  · intro hgen
    simp only [chatStep]
    cases hg : gen (randomPrompt (buildContext s.msgs)) with
    | none =>
        repeat' split
        all_goals simp_all
    | some t =>
        have ht : (t != "") = false := by
          rw [hg] at hgen
          simpa [pyTruthy] using hgen
        repeat' split
        all_goals simp_all
  · intro hsend
    subst hsend
    simp only [chatStep]
    repeat' split
    all_goals simp_all

/-- Witness for C8: the spec scenario — interval bounds [60,180] minutes,
last fire 200 minutes (12000 s) ago, count below cap, newest message from
another member, sample `r = 0`, generation and send succeeding — fires
exactly once and resets the fire timer to now. -/
theorem C8_random_injector_witness :
    chatStep ⟨⟨42, true, false, false, false, true, none, 60, 180, some 0, none, 10, 3, 7⟩,
        [⟨false, "al", "yo"⟩]⟩ 12000 7 (.scan 0 (fun _ => some "ping") true) =
      (⟨update_chat_counters
          ⟨42, true, false, false, false, true, none, 60, 180, some 0, none, 10, 3, 7⟩ 7 12000,
        ⟨true, "me", "ping"⟩ :: [⟨false, "al", "yo"⟩]⟩,
        some ⟨12000, false, "ping"⟩) := by
  have h := (C8_random_injector
    ⟨⟨42, true, false, false, false, true, none, 60, 180, some 0, none, 10, 3, 7⟩,
      [⟨false, "al", "yo"⟩]⟩ 12000 7 0 (fun _ => some "ping") true "ping" 0).1
    rfl rfl (by norm_num) rfl le_rfl (by norm_num) (by norm_num) (by norm_num) rfl rfl
    (by decide) rfl
  exact h.2

/-- C10: the shared per-chat timer.  (1) Every dispatch into a group chat —
message-triggered or random — leaves `last_random_time` equal to the
dispatch time, so either kind of dispatch restarts both the
message-trigger cooldown window and the random-injection interval, which
both read this single field.  (2) The message-trigger cooldown gate can
only block when `cooldown_sec` is non-NULL (indeed non-zero, NULL and 0
being equally falsy to the gate) and `last_random_time` is non-NULL. -/
theorem C10_shared_timer :
    (∀ (s : ChatState) (now today : Nat) (e : ChatEvent) (d : Dispatch),
      (chatStep s now today e).2 = some d →
        (chatStep s now today e).1.row.last_random_time = some now) ∧
    (∀ (row : ChatTriggersRow) (now : Nat),
      cooldownBlocks row now = true →
        row.cooldown_sec ≠ none ∧ row.last_random_time ≠ none ∧
        (∃ c, row.cooldown_sec = some c ∧ c ≠ 0)) := by
  constructor
  · intro s now today e d h
    exact ((chatStep_spec s now today e).2.2 d h).2.1
  · intro row now h
    unfold cooldownBlocks at h
    cases hc : row.cooldown_sec with
    | none =>
        rw [hc] at h
        exact absurd h (by simp)
    | some c =>
        cases ht : row.last_random_time with
        | none =>
            rw [hc, ht] at h
            exact absurd h (by simp)
        | some t0 =>
            rw [hc, ht] at h
            have hc0 : c ≠ 0 := by
              intro h0
              subst h0
              simp at h
            exact ⟨by simp, by simp, c, rfl, hc0⟩

/-- Witness for C10: the random dispatch of the C8 scenario resets
`last_random_time` to the dispatch time, and a blocking cooldown implies
both fields are non-NULL. -/
theorem C10_shared_timer_witness :
    (chatStep ⟨chatRowEx, []⟩ 400 0
        (.inbound "bo" "hey" true false true true (some "hi") true)).1.row.last_random_time =
      some 400 ∧
    (chatRowFired.cooldown_sec ≠ none ∧ chatRowFired.last_random_time ≠ none) := by
  constructor
  · exact C10_shared_timer.1 ⟨chatRowEx, []⟩ 400 0
      (.inbound "bo" "hey" true false true true (some "hi") true) ⟨400, true, "hi"⟩
      (by decide)
  · have hblock : cooldownBlocks chatRowFired 100 = true := by
      simp [cooldownBlocks, chatRowFired, chatRowEx]
      norm_num
    have h := C10_shared_timer.2 chatRowFired 100 hblock
    exact ⟨h.1, h.2.1⟩

end AutoReply
